import Mathlib

/-!
Verification development for the `llm-comparison` repository.

The Python sources under `backend/src` are shallowly embedded below.
Python numbers (ints and floats used as exact quantities) are modelled as
`ℚ`; where the binary64 floating-point representation itself is what a
claim is about, an explicit base-2 rounding model (`roundDouble`) is used.
Python strings are modelled as `String` or `List Char`, `None` as
`Option.none`, raised exceptions as `Except.error`.
-/

set_option maxRecDepth 40000

namespace LLMComp

/-! ## Python-style numeric helpers -/

/-- Round a rational to the nearest integer, ties to even: the rounding
mode of Python's builtin `round` and of IEEE-754 binary64 arithmetic. -/
def roundHalfEvenInt (x : ℚ) : ℤ :=
  let f : ℤ := ⌊x⌋
  let r : ℚ := x - (f : ℚ)
  if r < 1/2 then f
  else if 1/2 < r then f + 1
  else if f % 2 = 0 then f else f + 1

/-- Model of Python `round(x, 2)` on exact rationals. -/
def round2 (x : ℚ) : ℚ := (roundHalfEvenInt (100 * x) : ℚ) / 100

/-- Model of Python `round(x, 6)` on exact rationals. -/
def round6 (x : ℚ) : ℚ := (roundHalfEvenInt (1000000 * x) : ℚ) / 1000000

/-- Model of Python `int(x)` on a float/rational: truncation toward zero. -/
def pyInt (x : ℚ) : ℤ := if 0 ≤ x then ⌊x⌋ else -⌊-x⌋

/-- Insert into a sorted list (ascending). -/
def insertSorted (x : ℚ) : List ℚ → List ℚ
  | [] => [x]
  | y :: ys => if x ≤ y then x :: y :: ys else y :: insertSorted x ys

/-- Model of Python `sorted` on numbers (a stable ascending sort). -/
def pySorted (l : List ℚ) : List ℚ := l.foldr insertSorted []

/-- Model of Python `statistics.mean` (callers guard against empty input). -/
def pyMean (l : List ℚ) : ℚ := l.sum / (l.length : ℚ)

/-- Model of Python `statistics.median`: middle element of the sorted data
for odd length, average of the two middle elements for even length. -/
def pyMedian (l : List ℚ) : ℚ :=
  let s := pySorted l
  let n := l.length
  if n % 2 = 1 then s.getD (n / 2) 0
  else (s.getD (n / 2 - 1) 0 + s.getD (n / 2) 0) / 2

/-- Truthiness of an optional number, as in `if r.get('latency_ms')`:
`None` and `0` are falsy. -/
def truthyNum : Option ℚ → Bool
  | none => false
  | some x => x != 0

/-- Truthiness of an optional string, as in `if r.get('error_message')`:
`None` and the empty string are falsy. -/
def truthyStr : Option String → Bool
  | none => false
  | some s => s != ""

/-- First-occurrence lookup in an association list, modelling
`d.get(k)` on a Python dict (keys are unique in the dicts the code builds). -/
def dictFind {α : Type} (l : List (String × α)) (k : String) : Option α :=
  (l.find? (fun p => p.1 = k)).map (fun p => p.2)

namespace MetricsCalculator

/-- One entry of the `model_results` list passed to
`MetricsCalculator.calculate_model_metrics` (a Python dict built in
`api/results.py`): optional numeric fields and an optional error string. -/
structure ResultDict where
  model_name : String
  latency_ms : Option ℚ
  cost_usd : Option ℚ
  tokens_in : Option ℚ
  tokens_out : Option ℚ
  error_message : Option String
deriving Repr, DecidableEq

/-- One entry of the `judge_results` list passed to
`calculate_model_metrics`: winner label, the two optional scores (an absent
score models `score_field not in j`), and per-criterion per-model scores
(`criteria_scores[criterion][model_identifier]`). -/
structure JudgeDict where
  winner : String
  score_a : Option ℚ
  score_b : Option ℚ
  criteria_scores : List (String × List (String × ℚ))
deriving Repr, DecidableEq

/-- Embedding of the `ModelMetrics` dataclass of `core/metrics.py`. -/
structure ModelMetrics where
  model_name : String
  total_questions : ℕ
  avg_latency_ms : ℚ
  median_latency_ms : ℚ
  p95_latency_ms : ℚ
  total_cost_usd : ℚ
  avg_cost_per_query : ℚ
  total_tokens_in : ℚ
  total_tokens_out : ℚ
  avg_tokens_in : ℚ
  avg_tokens_out : ℚ
  win_rate : ℚ
  tie_rate : ℚ
  loss_rate : ℚ
  avg_score : ℚ
  avg_correctness : ℚ
  avg_relevance : ℚ
  avg_completeness : ℚ
  avg_clarity : ℚ
  avg_conciseness : ℚ
  error_count : ℕ
  error_rate : ℚ
deriving Repr

/-- Embedding of `MetricsCalculator._percentile` of `core/metrics.py`:
`index = (percentile / 100) * len(sorted_data)`; if `index` is an integer
return `sorted_data[int(index)]`, otherwise return the unweighted midpoint
of `sorted_data[int(index)]` and `sorted_data[min(int(index)+1, n-1)]`.
List indexing uses `getD _ 0`; for the percentiles the code uses
(50 and 95) the index is always in range. -/
def percentile (data : List ℚ) (p : ℕ) : ℚ :=
  if data = [] then 0
  else
    let sorted_data := pySorted data
    let index : ℚ := ((p : ℚ) / 100) * (data.length : ℚ)
    if index = (⌊index⌋ : ℚ) then sorted_data.getD (⌊index⌋.toNat) 0
    else
      let lower := sorted_data.getD (⌊index⌋.toNat) 0
      let upper := sorted_data.getD (min (⌊index⌋.toNat + 1) (data.length - 1)) 0
      (lower + upper) / 2

/-- Values of one criterion for one model identifier across the judge
results, as collected by `MetricsCalculator._extract_criteria_scores`. -/
def criteriaVals (judge_results : List JudgeDict) (ident criterion : String) :
    List ℚ :=
  judge_results.filterMap (fun j =>
    match dictFind j.criteria_scores criterion with
    | none => none
    | some inner => dictFind inner ident)

/-- Average of one criterion (0 when no judge result carries it), the per-name
output of `_extract_criteria_scores`. -/
def criteriaAvg (judge_results : List JudgeDict) (ident criterion : String) : ℚ :=
  let vals := criteriaVals judge_results ident criterion
  if vals = [] then 0 else pyMean vals

/-- Embedding of `MetricsCalculator.calculate_model_metrics` of
`core/metrics.py`. Raising `ValueError("No model results provided")` on an
empty result list is modelled as `Except.error`. -/
def calculate_model_metrics (model_results : List ResultDict)
    (judge_results : List JudgeDict) (model_identifier : String) :
    Except String ModelMetrics :=
  if model_results = [] then .error "No model results provided"
  else
    let total_questions := model_results.length
    let model_name := ((model_results.head?).map (fun r => r.model_name)).getD "unknown"
    let latencies := model_results.filterMap (fun r =>
      if truthyNum r.latency_ms then r.latency_ms else none)
    let avg_latency := if latencies = [] then 0 else pyMean latencies
    let median_latency := if latencies = [] then 0 else pyMedian latencies
    let p95_latency := if latencies = [] then 0 else percentile latencies 95
    let costs := model_results.filterMap (fun r => r.cost_usd)
    let total_cost := if costs = [] then 0 else costs.sum
    let avg_cost := if costs = [] then 0 else pyMean costs
    let tokens_in := model_results.filterMap (fun r =>
      if truthyNum r.tokens_in then r.tokens_in else none)
    let tokens_out := model_results.filterMap (fun r =>
      if truthyNum r.tokens_out then r.tokens_out else none)
    let total_tokens_in := if tokens_in = [] then 0 else tokens_in.sum
    let total_tokens_out := if tokens_out = [] then 0 else tokens_out.sum
    let avg_tokens_in := if tokens_in = [] then 0 else pyMean tokens_in
    let avg_tokens_out := if tokens_out = [] then 0 else pyMean tokens_out
    let error_count := (model_results.filter (fun r => truthyStr r.error_message)).length
    let error_rate : ℚ :=
      if 0 < total_questions then ((error_count : ℚ) / (total_questions : ℚ)) * 100 else 0
    if judge_results = [] then
      .ok {
        model_name := model_name
        total_questions := total_questions
        avg_latency_ms := round2 avg_latency
        median_latency_ms := round2 median_latency
        p95_latency_ms := round2 p95_latency
        total_cost_usd := round6 total_cost
        avg_cost_per_query := round6 avg_cost
        total_tokens_in := total_tokens_in
        total_tokens_out := total_tokens_out
        avg_tokens_in := round2 avg_tokens_in
        avg_tokens_out := round2 avg_tokens_out
        win_rate := round2 0
        tie_rate := round2 0
        loss_rate := round2 0
        avg_score := round2 0
        avg_correctness := round2 0
        avg_relevance := round2 0
        avg_completeness := round2 0
        avg_clarity := round2 0
        avg_conciseness := round2 0
        error_count := error_count
        error_rate := round2 error_rate }
    else
      let nj := judge_results.length
      let wins := (judge_results.filter (fun j => j.winner = model_identifier)).length
      let ties := (judge_results.filter (fun j => j.winner = "tie")).length
      let losses : ℤ := (nj : ℤ) - (wins : ℤ) - (ties : ℤ)
      let win_rate : ℚ := ((wins : ℚ) / (nj : ℚ)) * 100
      let tie_rate : ℚ := ((ties : ℚ) / (nj : ℚ)) * 100
      let loss_rate : ℚ := ((losses : ℚ) / (nj : ℚ)) * 100
      let scores := judge_results.filterMap (fun j =>
        if model_identifier = "model_a" then j.score_a else j.score_b)
      let avg_score := if scores = [] then 0 else pyMean scores
      .ok {
        model_name := model_name
        total_questions := total_questions
        avg_latency_ms := round2 avg_latency
        median_latency_ms := round2 median_latency
        p95_latency_ms := round2 p95_latency
        total_cost_usd := round6 total_cost
        avg_cost_per_query := round6 avg_cost
        total_tokens_in := total_tokens_in
        total_tokens_out := total_tokens_out
        avg_tokens_in := round2 avg_tokens_in
        avg_tokens_out := round2 avg_tokens_out
        win_rate := round2 win_rate
        tie_rate := round2 tie_rate
        loss_rate := round2 loss_rate
        avg_score := round2 avg_score
        avg_correctness := round2 (criteriaAvg judge_results model_identifier "correctness")
        avg_relevance := round2 (criteriaAvg judge_results model_identifier "relevance")
        avg_completeness := round2 (criteriaAvg judge_results model_identifier "completeness")
        avg_clarity := round2 (criteriaAvg judge_results model_identifier "clarity")
        avg_conciseness := round2 (criteriaAvg judge_results model_identifier "conciseness")
        error_count := error_count
        error_rate := round2 error_rate }

/-- Embedding of `MetricsCalculator._determine_winner`; the source's default
threshold argument `0.05` is passed explicitly by the callers below. -/
def determine_winner (score_a score_b threshold : ℚ) : String :=
  let diff := score_a - score_b
  if |diff| < threshold then "tie"
  else if 0 < diff then "model_a" else "model_b"

end MetricsCalculator

/-! ## Overall weighted score (`core/llm_judge.py`, `calculate_overall_score`) -/

/-- Lookup in the metrics dict passed to `calculate_overall_score`:
`metrics.get(metric)` yields `None` both for a missing key and for a key
stored with value `None`. -/
def metricsGet (metrics : List (String × Option ℚ)) (k : String) : Option ℚ :=
  match (metrics.find? (fun p => p.1 = k)).map (fun p => p.2) with
  | some v => v
  | none => none

/-- The weight table of `calculate_overall_score`. -/
def overallWeights : List (String × ℚ) :=
  [("accuracy", 30/100), ("faithfulness", 30/100),
   ("reasoning", 20/100), ("context_utilization", 20/100)]

/-- Embedding of `calculate_overall_score` of `core/llm_judge.py`:
accumulate `score * weight` and the weight over the non-`None` axes, return
`total_score / total_weight`, or `0.0` when `total_weight == 0`. -/
def calculate_overall_score (metrics : List (String × Option ℚ)) : ℚ :=
  let acc := overallWeights.foldl
    (fun (acc : ℚ × ℚ) (w : String × ℚ) =>
      match metricsGet metrics w.1 with
      | some score => (acc.1 + score * w.2, acc.2 + w.2)
      | none => acc)
    (0, 0)
  if acc.2 = 0 then 0 else acc.1 / acc.2

/-- Formula stated by the spec for the overall score (for the refinement
check against `calculate_overall_score`): the 0.30/0.30/0.20/0.20-weighted
sum renormalized over only the non-null axes, `0` when every axis is null. -/
def specOverallScore (a f r c : Option ℚ) : ℚ :=
  let axes : List (Option ℚ × ℚ) := [(a, 30/100), (f, 30/100), (r, 20/100), (c, 20/100)]
  let num := (axes.map (fun p => match p.1 with | some v => v * p.2 | none => 0)).sum
  let den := (axes.map (fun p => match p.1 with | some _ => p.2 | none => 0)).sum
  if den = 0 then 0 else num / den

/-- The four-axis metrics dict as built by callers of
`calculate_overall_score` (e.g. the summary step of
`run_evaluation_background`). -/
def mkOverallMetrics (a f r c : Option ℚ) : List (String × Option ℚ) :=
  [("accuracy", a), ("faithfulness", f), ("reasoning", r), ("context_utilization", c)]

/-! ## Binary64 model for the orchestrator progress computation

`run_evaluation_background` stores `progress = int((completed / len(questions)) * 100)`,
computed in Python floats (IEEE-754 binary64, round-to-nearest-even).
The model below works on unreduced integer fractions (numerator over a
positive denominator) so that every step is kernel-computable, and rounds
an exact fraction to the nearest binary64 value (53-bit significand, ties
to even). It covers positive values of the normal range — the only values
the progress computation produces — and ignores overflow and subnormals. -/

/-- An unreduced fraction `num / den`; every constructor and operation
below keeps `den` positive. -/
structure Frac where
  num : ℤ
  den : ℤ
deriving Repr, DecidableEq

/-- Strict comparison of fractions with positive denominators. -/
def Frac.lt (a b : Frac) : Bool := a.num * b.den < b.num * a.den

/-- Non-strict comparison of fractions with positive denominators. -/
def Frac.le (a b : Frac) : Bool := a.num * b.den ≤ b.num * a.den

/-- Exact product of two fractions. -/
def Frac.mul (a b : Frac) : Frac := ⟨a.num * b.num, a.den * b.den⟩

/-- Exact quotient of two fractions (used with positive `b` only). -/
def Frac.div (a b : Frac) : Frac := ⟨a.num * b.den, a.den * b.num⟩

/-- Floor of a fraction with positive denominator. -/
def Frac.floor (a : Frac) : ℤ := Int.fdiv a.num a.den

/-- Round a fraction with positive denominator to the nearest integer,
ties to even (the IEEE-754 default rounding). -/
def Frac.roundHalfEven (x : Frac) : ℤ :=
  let f := x.floor
  let rnum := x.num - f * x.den
  if 2 * rnum < x.den then f
  else if x.den < 2 * rnum then f + 1
  else if f % 2 = 0 then f else f + 1

/-- Multiply a fraction by `2 ^ p` exactly (for any sign of `p`). -/
def Frac.shift (a : Frac) (p : ℤ) : Frac :=
  if 0 ≤ p then ⟨a.num * 2 ^ p.toNat, a.den⟩ else ⟨a.num, a.den * 2 ^ (-p).toNat⟩

/-- Find the binary exponent `e` with `2 ^ e ≤ q < 2 ^ (e + 1)` for a
positive `q ≥ 1` by walking upward; `fuel` bounds the walk (1200 covers
the whole binary64 range). -/
def expUp : ℕ → Frac → Frac → ℤ → ℤ
  | 0, _, _, e => e
  | fuel + 1, q, cur, e =>
    if q.lt cur then e else expUp fuel q (cur.mul ⟨2, 1⟩) (e + 1)

/-- Downward companion of `expUp` for positive `q < 1`. -/
def expDown : ℕ → Frac → Frac → ℤ → ℤ
  | 0, _, _, e => e
  | fuel + 1, q, cur, e =>
    if cur.le q then e else expDown fuel q ⟨cur.num, cur.den * 2⟩ (e - 1)

/-- Binary exponent of a positive fraction. -/
def expFor (q : Frac) : ℤ :=
  if (Frac.mk 1 1).le q then expUp 1200 q ⟨2, 1⟩ 0 else expDown 1200 q ⟨1, 2⟩ (-1)

/-- Round a positive fraction to the nearest binary64 value: scale into
`[2^52, 2^53)`, round the significand to an integer (ties to even), and
scale back. -/
def roundDoublePos (q : Frac) : Frac :=
  let e := expFor q
  let m := (q.shift (52 - e)).roundHalfEven
  (Frac.mk m 1).shift (e - 52)

/-- Round a fraction to the nearest binary64 value. -/
def roundDouble (q : Frac) : Frac :=
  if q.num = 0 then ⟨0, 1⟩
  else if 0 < q.num then roundDoublePos q
  else
    let r := roundDoublePos ⟨-q.num, q.den⟩
    ⟨-r.num, r.den⟩

/-- Binary64 division `a / b` (one correctly rounded operation). -/
def fpDiv (a b : Frac) : Frac := roundDouble (a.div b)

/-- Binary64 multiplication (one correctly rounded operation). -/
def fpMul (a b : Frac) : Frac := roundDouble (a.mul b)

/-- Model of Python `int()` truncation on a fraction: toward zero. -/
def Frac.toInt (x : Frac) : ℤ :=
  if 0 ≤ x.num then x.floor else -(Frac.mk (-x.num) x.den).floor

/-- The progress value stored by `run_evaluation_background` after
`completed` of `total` questions: `int((completed / total) * 100)` in
Python float arithmetic (`api/evaluation.py`, the per-question
`update_evaluation_status` call). -/
def progressStored (completed total : ℕ) : ℤ :=
  (fpMul (fpDiv ⟨(completed : ℤ), 1⟩ ⟨(total : ℤ), 1⟩) ⟨100, 1⟩).toInt

/-- The progress formula stated by the spec: `floor(100 * completed / total)`. -/
def specProgress (completed total : ℕ) : ℕ := (100 * completed) / total

/-! ## JSON values and a model of `json.loads`

The judge pipeline parses free-text model output with Python's `json`
module. The model below covers the JSON subset the code exchanges:
objects, arrays, strings with the single-character escapes, `true`,
`false`, `null`, and decimal numerals (`\uXXXX` escapes and non-JSON
`float()` inputs such as `inf` are not modelled). -/

/-- A parsed JSON value. Object fields keep their textual order; duplicate
keys are resolved last-wins by `Json.get` below, as in a Python dict. -/
inductive Json where
  | null : Json
  | bool (b : Bool) : Json
  | num (q : ℚ) : Json
  | str (s : List Char) : Json
  | arr (elems : List Json) : Json
  | obj (fields : List (List Char × Json)) : Json

/-- JSON whitespace (the characters `json.loads` skips between tokens). -/
def isJsonWs (c : Char) : Bool :=
  c = ' ' || c = '\t' || c = '\n' || c = '\x0d'

/-- Skip leading JSON whitespace. -/
def skipWs (cs : List Char) : List Char := cs.dropWhile isJsonWs

/-- Value of a decimal digit character. -/
def digitVal (c : Char) : ℕ := c.toNat - '0'.toNat

/-- Parse a non-empty run of decimal digits: value, digit count, rest. -/
def parseDigits (cs : List Char) : Option (ℕ × ℕ × List Char) :=
  let ds := cs.takeWhile Char.isDigit
  if ds.isEmpty then none
  else some (ds.foldl (fun a c => 10 * a + digitVal c) 0, ds.length, cs.dropWhile Char.isDigit)

/-- Parse the optional fraction part of a JSON numeral (after the integer
part): yields the fractional value and the rest. -/
def parseFrac (cs : List Char) : Option (ℚ × List Char) :=
  match cs with
  | '.' :: t =>
    match parseDigits t with
    | some (fv, fc, r) => some ((fv : ℚ) / 10 ^ fc, r)
    | none => none
  | _ => some (0, cs)

/-- Parse the optional exponent part of a JSON numeral: yields the power of
ten and the rest. -/
def parseExp (cs : List Char) : Option (ℚ × List Char) :=
  match cs with
  | 'e' :: t | 'E' :: t =>
    match t with
    | '-' :: t2 =>
      match parseDigits t2 with
      | some (ev, _, r) => some ((1 : ℚ) / 10 ^ ev, r)
      | none => none
    | '+' :: t2 =>
      match parseDigits t2 with
      | some (ev, _, r) => some ((10 : ℚ) ^ ev, r)
      | none => none
    | _ =>
      match parseDigits t with
      | some (ev, _, r) => some ((10 : ℚ) ^ ev, r)
      | none => none
  | _ => some (1, cs)

/-- Parse a JSON numeral: optional minus, integer digits, optional
fraction, optional exponent. -/
def parseNumber (cs : List Char) : Option (ℚ × List Char) :=
  let (neg, cs1) : Bool × List Char :=
    match cs with
    | '-' :: t => (true, t)
    | _ => (false, cs)
  match parseDigits cs1 with
  | none => none
  | some (ip, _, cs2) =>
    match parseFrac cs2 with
    | none => none
    | some (fq, cs3) =>
      match parseExp cs3 with
      | none => none
      | some (ex, cs4) =>
        let base : ℚ := if fq = 0 then (ip : ℚ) else (ip : ℚ) + fq
        let v : ℚ := if ex = 1 then base else base * ex
        some (if neg then -v else v, cs4)

/-- Translate a JSON string escape character. -/
def escChar (c : Char) : Option Char :=
  if c = '"' then some '"'
  else if c = '\\' then some '\\'
  else if c = '/' then some '/'
  else if c = 'n' then some '\n'
  else if c = 't' then some '\t'
  else if c = 'r' then some '\x0d'
  else if c = 'b' then some '\x08'
  else if c = 'f' then some '\x0c'
  else none

/-- Parse a JSON string body (the opening quote already consumed):
characters up to the closing quote, decoding escapes. -/
def parseStringBody : List Char → Option (List Char × List Char)
  | [] => none
  | '"' :: rest => some ([], rest)
  | '\\' :: c :: rest =>
    match escChar c with
    | some ec => (parseStringBody rest).map (fun p => (ec :: p.1, p.2))
    | none => none
  | c :: rest => (parseStringBody rest).map (fun p => (c :: p.1, p.2))

/-- The pending work of the recursive-descent JSON parser: a value, the
members of an object (accumulated so far), or the items of an array. -/
inductive PTask where
  | value : PTask
  | members (acc : List (List Char × Json)) : PTask
  | items (acc : List Json) : PTask

/-- One recursive-descent JSON parser for values, object members and array
items, structurally recursive on a fuel bound (callers supply
`input length + 1`, which dominates the nesting depth). -/
def parseF : ℕ → PTask → List Char → Except String (Json × List Char)
  | 0, _, _ => .error "Nesting depth exceeded"
  | fuel + 1, .value, cs =>
    let cs1 := skipWs cs
    if List.isPrefixOf "true".data cs1 then .ok (.bool true, cs1.drop 4)
    else if List.isPrefixOf "false".data cs1 then .ok (.bool false, cs1.drop 5)
    else if List.isPrefixOf "null".data cs1 then .ok (.null, cs1.drop 4)
    else
      match cs1 with
      | '"' :: rest =>
        match parseStringBody rest with
        | some (s, r) => .ok (.str s, r)
        | none => .error "Unterminated string"
      | '\x7b' :: rest =>
        match skipWs rest with
        | '\x7d' :: r => .ok (.obj [], r)
        | r => parseF fuel (.members []) r
      | '[' :: rest =>
        match skipWs rest with
        | ']' :: r => .ok (.arr [], r)
        | r => parseF fuel (.items []) r
      | _ =>
        match parseNumber cs1 with
        | some (q, r) => .ok (.num q, r)
        | none => .error "Expecting value"
  | fuel + 1, .members acc, cs =>
    match cs with
    | '"' :: rest =>
      match parseStringBody rest with
      | none => .error "Unterminated string"
      | some (key, r1) =>
        match skipWs r1 with
        | ':' :: r2 =>
          match parseF fuel .value r2 with
          | .error e => .error e
          | .ok (v, r3) =>
            match skipWs r3 with
            | ',' :: r4 => parseF fuel (.members (acc ++ [(key, v)])) (skipWs r4)
            | '\x7d' :: r4 => .ok (.obj (acc ++ [(key, v)]), r4)
            | _ => .error "Expecting delimiter"
        | _ => .error "Expecting colon"
    | _ => .error "Expecting property name"
  | fuel + 1, .items acc, cs =>
    match parseF fuel .value cs with
    | .error e => .error e
    | .ok (v, r1) =>
      match skipWs r1 with
      | ',' :: r2 => parseF fuel (.items (acc ++ [v])) r2
      | ']' :: r2 => .ok (.arr (acc ++ [v]), r2)
      | _ => .error "Expecting delimiter"

/-- Model of Python `json.loads`: parse one JSON value and require only
whitespace to remain. -/
def loads (cs : List Char) : Except String Json :=
  match parseF (cs.length + 1) .value cs with
  | .error e => .error e
  | .ok (v, rest) => if skipWs rest = [] then .ok v else .error "Extra data"

/-- Model of Python `dict.get(key)` on a parsed JSON object: the last
binding of the key wins (dict insertion overwrites); `none` on a missing
key or a non-object value. -/
def Json.get (j : Json) (key : List Char) : Option Json :=
  match j with
  | .obj fields => ((fields.reverse).find? (fun f => f.1 = key)).map (fun f => f.2)
  | _ => none

/-- Model of Python `float(x)` on a JSON value: numbers pass through,
booleans become 0/1, numeric strings are parsed (JSON-style numerals,
surrounding whitespace allowed), everything else raises (`none`). -/
def pyFloat (j : Json) : Option ℚ :=
  match j with
  | .num q => some q
  | .bool b => some (if b then 1 else 0)
  | .str s =>
    match parseNumber (skipWs s) with
    | some (q, rest) => if skipWs rest = [] then some q else none
    | none => none
  | _ => none

namespace LLMJudge

/-- The provider reply consumed by the judge: generated text plus an
optional provider error (`response.content` / `response.error`). The
provider call itself is an external collaborator; each judge method below
takes the reply it would have received as a parameter. -/
structure LLMResponse where
  content : List Char
  error : Option (List Char)

/-- The brace-delimited span the regex `\x7b[\s\S]*\x7d` of
`LLMJudge._extract_json` selects: from the first opening brace (that is
followed by some closing brace) through the last closing brace of the
whole text; `none` when the regex does not match. -/
def braceSpan (text : List Char) : Option (List Char) :=
  let rest := text.dropWhile (fun c => c ≠ '\x7b')
  let rrev := (rest.reverse).dropWhile (fun c => c ≠ '\x7d')
  if rrev.isEmpty then none else some rrev.reverse

/-- Embedding of `LLMJudge._extract_json` of `core/llm_judge.py`: run
`json.loads` on the brace-delimited span when the regex matches, otherwise
on the entire text; parse failures propagate as errors (never a default). -/
def extract_json (text : List Char) : Except String Json :=
  match braceSpan text with
  | some s => loads s
  | none => loads text

/-- Embedding of the `JudgeResult` dataclass of `core/llm_judge.py`.
Fields that Python stores untyped straight from the parsed dict
(`winner`, `reasoning`, `criteria_scores`) are kept as `Json`. -/
structure JudgeResult where
  winner : Json
  score_a : ℚ
  score_b : ℚ
  reasoning : Json
  confidence : ℚ
  criteria_scores : Json
  judge_response : List Char

/-- Embedding of the response-processing tail of `LLMJudge.judge_pair`:
provider errors and parse failures raise; otherwise the `JudgeResult` is
built from the parsed judgment with `.get` defaults
(`winner` → `"tie"`, scores → `0`, `confidence` → `0.5`) and `float(...)`
conversion of the three numeric fields — with no clamping. A judgment that
is not a JSON object raises (`.get` on a non-dict). -/
def judge_pair (response : LLMResponse) : Except (List Char) JudgeResult :=
  match response.error with
  | some e => .error ("Error in judge evaluation: ".data ++ e)
  | none =>
    match extract_json response.content with
    | .error _ => .error "Failed to parse judge response".data
    | .ok judgment =>
      match judgment with
      | .obj _ =>
        match pyFloat ((judgment.get "score_a".data).getD (.num 0)),
              pyFloat ((judgment.get "score_b".data).getD (.num 0)),
              pyFloat ((judgment.get "confidence".data).getD (.num (1/2))) with
        | some sa, some sb, some cf =>
          .ok { winner := (judgment.get "winner".data).getD (.str "tie".data)
                score_a := sa
                score_b := sb
                reasoning := (judgment.get "reasoning".data).getD (.str [])
                confidence := cf
                criteria_scores := (judgment.get "criteria_scores".data).getD (.obj [])
                judge_response := response.content }
        | _, _, _ => .error "float conversion failed".data
      | _ => .error "judgment is not a dict".data

/-- Winner comparison `r.winner == model_name` on an untyped stored value:
true exactly when the stored value is that string. -/
def winnerIs (w : Json) (name : List Char) : Bool :=
  match w with
  | .str s => s = name
  | _ => false

/-- The win/tie/loss percentages returned by `LLMJudge.calculate_win_rate`. -/
structure WinRates where
  win_rate : ℚ
  tie_rate : ℚ
  loss_rate : ℚ

/-- Embedding of `LLMJudge.calculate_win_rate` of `core/llm_judge.py`:
all-zero rates for an empty list, otherwise
`wins / total * 100`, `ties / total * 100` and
`losses = total - wins - ties` scaled likewise. -/
def calculate_win_rate (judge_results : List JudgeResult) (model_name : List Char) :
    WinRates :=
  if judge_results.isEmpty then ⟨0, 0, 0⟩
  else
    let total := judge_results.length
    let wins := (judge_results.filter (fun r => winnerIs r.winner model_name)).length
    let ties := (judge_results.filter (fun r => winnerIs r.winner "tie".data)).length
    let losses : ℤ := (total : ℤ) - (wins : ℤ) - (ties : ℤ)
    ⟨((wins : ℚ) / (total : ℚ)) * 100,
     ((ties : ℚ) / (total : ℚ)) * 100,
     ((losses : ℚ) / (total : ℚ)) * 100⟩

/-- Clamp to `[0, 1]`, the `max(0.0, min(1.0, score))` of the rubric
evaluators. -/
def clamp01 (q : ℚ) : ℚ := max 0 (min 1 q)

/-- The score/explanation pair each rubric evaluator returns. -/
structure MetricEval where
  score : Option ℚ
  explanation : Json

/-- The response-processing tail shared by `evaluate_faithfulness`,
`evaluate_reasoning`, `evaluate_context_utilization` and the
reference-answer branch of `evaluate_accuracy` (`core/llm_judge.py`):
a provider error yields score `0.0`; a parse or conversion failure is
caught by the surrounding `except` and yields score `0.0`; otherwise
`float(result.get("score", 0.0))` clamped to `[0, 1]`. -/
def parseRubricResponse (response : LLMResponse) : MetricEval :=
  match response.error with
  | some e => ⟨some 0, .str ("Error: ".data ++ e)⟩
  | none =>
    match extract_json response.content with
    | .error _ => ⟨some 0, .str "Error evaluating metric".data⟩
    | .ok result =>
      match result with
      | .obj _ =>
        match pyFloat ((result.get "score".data).getD (.num 0)) with
        | some s =>
          ⟨some (clamp01 s),
           (result.get "explanation".data).getD (.str "No explanation provided".data)⟩
        | none => ⟨some 0, .str "Error evaluating metric".data⟩
      | _ => ⟨some 0, .str "Error evaluating metric".data⟩

/-- Embedding of `LLMJudge.evaluate_accuracy`: with no (or an empty)
expected answer it returns score `None` before any provider call;
otherwise it scores the reply like the other rubric evaluators. -/
def evaluate_accuracy (expected_answer : Option (List Char))
    (response : LLMResponse) : MetricEval :=
  if expected_answer = none ∨ expected_answer = some [] then
    ⟨none, .str "No expected answer provided for comparison".data⟩
  else parseRubricResponse response

/-- Embedding of `LLMJudge.evaluate_faithfulness` (response processing). -/
def evaluate_faithfulness (response : LLMResponse) : MetricEval :=
  parseRubricResponse response

/-- Embedding of `LLMJudge.evaluate_reasoning` (response processing). -/
def evaluate_reasoning (response : LLMResponse) : MetricEval :=
  parseRubricResponse response

/-- Embedding of `LLMJudge.evaluate_context_utilization` (response
processing). -/
def evaluate_context_utilization (response : LLMResponse) : MetricEval :=
  parseRubricResponse response

/-- The four-axis result of `evaluate_all_quality_metrics`. -/
structure QualityMetrics where
  accuracy : MetricEval
  faithfulness : MetricEval
  reasoning : MetricEval
  context_utilization : MetricEval

/-- Embedding of `LLMJudge.evaluate_all_quality_metrics`: gather the four
rubric evaluations (their four provider replies are independent
parameters; `asyncio.gather` runs them concurrently and in our pure model
is plain tupling). -/
def evaluate_all_quality_metrics (expected_answer : Option (List Char))
    (respAcc respFaith respReason respCtx : LLMResponse) : QualityMetrics :=
  ⟨evaluate_accuracy expected_answer respAcc,
   evaluate_faithfulness respFaith,
   evaluate_reasoning respReason,
   evaluate_context_utilization respCtx⟩

end LLMJudge

namespace SyntheticDataGenerator

/-- Embedding of the `SyntheticQuestion` dataclass of
`core/synthetic_data.py` (provenance metadata flattened into fields). -/
structure SyntheticQuestion where
  question : String
  expected_answer : Option String
  context : String
  question_type : String
  difficulty : String

/-- Embedding of the batch loop of
`SyntheticDataGenerator.generate_questions_from_chunks`: the per-chunk
`generate_questions_from_chunk` call (an external LLM call) is abstracted
by its outcome — the questions it produced, or the exception it raised.
A failing chunk is logged and skipped (`except ... continue`); successes
are appended in order. -/
def generate_questions_from_chunks
    (chunk_results : List (Except String (List SyntheticQuestion))) :
    List SyntheticQuestion :=
  chunk_results.foldl
    (fun all_questions r =>
      match r with
      | .ok questions => all_questions ++ questions
      | .error _ => all_questions)
    []

end SyntheticDataGenerator

namespace TextChunker

/-- The whitespace class of Python's `str.strip` and of `\s` in the
cleaning regexes (ASCII part). -/
def isPySpace (c : Char) : Bool :=
  c = ' ' || c = '\t' || c = '\n' || c = '\x0d' || c = '\x0b' || c = '\x0c'

/-- Model of Python `str.strip()`: drop leading and trailing whitespace. -/
def pyStrip (s : List Char) : List Char :=
  (((s.dropWhile isPySpace).reverse).dropWhile isPySpace).reverse

/-- Scan for `re.sub(r'\s+', ' ', text)`: the flag records whether the
previous character was inside a whitespace run (so the run only emits its
single replacement space once). -/
def collapseWsAux : Bool → List Char → List Char
  | _, [] => []
  | inRun, c :: cs =>
    if isPySpace c then
      if inRun then collapseWsAux true cs else ' ' :: collapseWsAux true cs
    else c :: collapseWsAux false cs

/-- Model of `re.sub(r'\s+', ' ', text)`: replace every maximal run of
whitespace with a single space. -/
def collapseWs (l : List Char) : List Char := collapseWsAux false l

/-- Embedding of `TextChunker._clean_text`: collapse whitespace runs, then
strip. The source's second substitution,
`re.sub(r'\n\s*\n\s*\n+', '\n\n', text)`, requires a newline in its input,
and the first substitution has already replaced every whitespace character
(newlines included) by a single space (`collapseWs_no_newline` below), so
it is the identity here and is omitted. -/
def clean_text (text : List Char) : List Char := pyStrip (collapseWs text)

/-- Model of Python `text.find(sub, start)` for non-empty `sub`: the least
index `≥ start` where `sub` occurs, `none` when it does not occur
(Python's `-1`). -/
def findFrom (text pat : List Char) (start : ℕ) : Option ℕ :=
  (List.range (text.length + 1)).find?
    (fun i => decide (start ≤ i) && List.isPrefixOf pat (text.drop i))

/-- Embedding of the `Chunk` dataclass of `core/chunking.py`. -/
structure Chunk where
  content : List Char
  index : ℕ
  start_char : ℕ
  end_char : ℕ
  token_count : ℕ
  metadata : List (String × String)
deriving Repr, DecidableEq

/-- The conversion loop of `TextChunker.chunk_text`: strip each splitter
piece, skip the empty ones, locate the piece in the cleaned text from the
running position (falling back to the running position when `find`
returns `-1`), and record a `Chunk` whose span, token count and content
are derived from the stripped piece. -/
def chunkLoop (count_tokens : List Char → ℕ) (text : List Char)
    (metadata : List (String × String)) :
    List (ℕ × List Char) → ℕ → List Chunk
  | [], _ => []
  | (index, piece) :: rest, pos =>
    let c := pyStrip piece
    if c.isEmpty then chunkLoop count_tokens text metadata rest pos
    else
      let start_char := (findFrom text c pos).getD pos
      let end_char := start_char + c.length
      { content := c
        index := index
        start_char := start_char
        end_char := end_char
        token_count := count_tokens c
        metadata := metadata } :: chunkLoop count_tokens text metadata rest end_char

/-- Embedding of `TextChunker.chunk_text` of `core/chunking.py`. The two
injected collaborators are parameters: `count_tokens` (the tiktoken
encoding) and `split_text` (LangChain's `RecursiveCharacterTextSplitter`),
so every theorem below holds for arbitrary splitter output. -/
def chunk_text (count_tokens : List Char → ℕ) (split_text : List Char → List (List Char))
    (text : List Char) (metadata : List (String × String)) : List Chunk :=
  if text.isEmpty || (pyStrip text).isEmpty then []
  else
    let cleaned := clean_text text
    chunkLoop count_tokens cleaned metadata ((split_text cleaned).enum) 0

end TextChunker

namespace MetricsCalculator

/-- Embedding of `MetricsCalculator.compare_models` of `core/metrics.py`
(the comparison dict as a structure); latency and cost are negated before
`_determine_winner` because lower is better. -/
structure Comparison where
  model_a : String
  model_b : String
  quality_winner : String
  speed_winner : String
  cost_winner : String
  quality_difference : ℚ
  speed_difference_ms : ℚ
  cost_difference_usd : ℚ
  win_rate_a : ℚ
  win_rate_b : ℚ
  win_rate_tie : ℚ
deriving Repr, DecidableEq

/-- Embedding of `MetricsCalculator.compare_models`; the source's default
threshold `0.05` is written `5/100`. -/
def compare_models (a b : ModelMetrics) : Comparison :=
  { model_a := a.model_name
    model_b := b.model_name
    quality_winner := determine_winner a.avg_score b.avg_score (5/100)
    speed_winner := determine_winner (-a.avg_latency_ms) (-b.avg_latency_ms) (5/100)
    cost_winner := determine_winner (-a.total_cost_usd) (-b.total_cost_usd) (5/100)
    quality_difference := |a.avg_score - b.avg_score|
    speed_difference_ms := |a.avg_latency_ms - b.avg_latency_ms|
    cost_difference_usd := |a.total_cost_usd - b.total_cost_usd|
    win_rate_a := a.win_rate
    win_rate_b := b.win_rate
    win_rate_tie := a.tie_rate }

end MetricsCalculator

namespace Results

/-- An HTTP error response (`HTTPException`). -/
structure HttpError where
  code : ℕ
  detail : String
deriving Repr, DecidableEq

/-- The persisted evaluation record, as read by the status and results
endpoints. -/
structure EvaluationRow where
  id : String
  workspace_id : String
  dataset_id : String
  name : String
  status : String
  progress : ℕ
  total_questions : ℕ
  completed_questions : ℕ
  models_tested : List String
  created_at : String

/-- A persisted per-(question, model) result row, restricted to the
columns the summary endpoint reads. -/
structure ModelResultRow where
  model_name : String
  latency_ms : Option ℚ
  cost_usd : Option ℚ
  tokens_in : Option ℚ
  tokens_out : Option ℚ
  error_message : Option String

/-- A persisted judge result row, restricted to the columns the summary
endpoint reads. -/
structure JudgeResultRow where
  winner : String
  score_a : Option ℚ
  score_b : Option ℚ
  criteria_scores : List (String × List (String × ℚ))

/-- The per-result dict built by `get_evaluation_summary`:
`float(result.cost_usd) if result.cost_usd else 0` (truthiness: `None` and
`0` both fall back to `0`). -/
def toResultDict (r : ModelResultRow) : MetricsCalculator.ResultDict :=
  { model_name := r.model_name
    latency_ms := r.latency_ms
    cost_usd := some (if truthyNum r.cost_usd then r.cost_usd.getD 0 else 0)
    tokens_in := r.tokens_in
    tokens_out := r.tokens_out
    error_message := r.error_message }

/-- The per-judge-result dict built by `get_evaluation_summary`. -/
def toJudgeDict (j : JudgeResultRow) : MetricsCalculator.JudgeDict :=
  { winner := j.winner
    score_a := some (if truthyNum j.score_a then j.score_a.getD 0 else 0)
    score_b := some (if truthyNum j.score_b then j.score_b.getD 0 else 0)
    criteria_scores := j.criteria_scores }

/-- One step of grouping results by model name with Python-dict insertion
order: append to an existing group, or open a new group at the end. -/
def insertGrouped (acc : List (String × List MetricsCalculator.ResultDict))
    (d : MetricsCalculator.ResultDict) :
    List (String × List MetricsCalculator.ResultDict) :=
  if acc.any (fun p => p.1 = d.model_name) then
    acc.map (fun p => if p.1 = d.model_name then (p.1, p.2 ++ [d]) else p)
  else acc ++ [(d.model_name, [d])]

/-- The `results_by_model` dict of `get_evaluation_summary`. -/
def groupByModel (rs : List MetricsCalculator.ResultDict) :
    List (String × List MetricsCalculator.ResultDict) :=
  rs.foldl insertGrouped []

/-- The body of the summary endpoint response. -/
structure EvaluationSummaryResponse where
  evaluation_id : String
  evaluation_name : String
  status : String
  total_questions : ℕ
  models_tested : List String
  metrics : List MetricsCalculator.ModelMetrics
  comparison : Option MetricsCalculator.Comparison

/-- Embedding of the `/results/{id}/summary` endpoint
(`get_evaluation_summary` in `api/results.py`) given the evaluation row
and its stored results (the 404 branch for a missing row is outside the
model). A non-`completed` status returns HTTP 400; an uncaught
`ValueError` from the metrics calculator surfaces as a server error. -/
def get_evaluation_summary (evaluation : EvaluationRow)
    (model_results : List ModelResultRow) (judge_results : List JudgeResultRow) :
    Except HttpError EvaluationSummaryResponse :=
  if evaluation.status ≠ "completed" then
    .error ⟨400, "Evaluation is not completed. Current status: " ++ evaluation.status⟩
  else
    let results_by_model := groupByModel (model_results.map toResultDict)
    let judge_list := judge_results.map toJudgeDict
    match (results_by_model.enum).mapM
        (fun p => MetricsCalculator.calculate_model_metrics p.2.2 judge_list
          (if p.1 = 0 then "model_a" else "model_b")) with
    | .error e => .error ⟨500, e⟩
    | .ok metrics_list =>
      let comparison :=
        match metrics_list with
        | [a, b] => some (MetricsCalculator.compare_models a b)
        | _ => none
      .ok { evaluation_id := evaluation.id
            evaluation_name := evaluation.name
            status := evaluation.status
            total_questions := evaluation.total_questions
            models_tested := evaluation.models_tested
            metrics := metrics_list
            comparison := comparison }

/-- A metrics record as the `metrics-summary` endpoint reads it: the six
attributes the code accesses, each nullable. (The persisted
`EvaluationMetrics` model does not actually define the four `*_score`
attributes, so the non-empty branch would raise at runtime; the code as
written is modelled.) -/
structure EvaluationMetricsRow where
  accuracy_score : Option ℚ
  faithfulness_score : Option ℚ
  reasoning_score : Option ℚ
  context_utilization_score : Option ℚ
  total_cost_usd : Option ℚ
  avg_latency_ms : Option ℚ

/-- The body of the `metrics-summary` endpoint response. -/
structure NewMetricsSummaryResponse where
  avg_accuracy : Option ℚ
  avg_faithfulness : Option ℚ
  avg_reasoning : Option ℚ
  avg_context_utilization : Option ℚ
  total_cost_usd : ℚ
  avg_latency_ms : ℚ
  total_questions : ℕ
  models_tested : List String
  status : String

/-- Embedding of the `/results/{id}/metrics-summary` endpoint
(`get_new_metrics_summary` in `api/results.py`): with no metrics records
it returns the degraded default response (null averages, zero totals) and
never an error; otherwise it averages with `x or 0` null-coalescing. -/
def get_new_metrics_summary (evaluation : EvaluationRow)
    (metrics_records : List EvaluationMetricsRow) : NewMetricsSummaryResponse :=
  if metrics_records.isEmpty then
    { avg_accuracy := none
      avg_faithfulness := none
      avg_reasoning := none
      avg_context_utilization := none
      total_cost_usd := 0
      avg_latency_ms := 0
      total_questions := evaluation.total_questions
      models_tested := evaluation.models_tested
      status := evaluation.status }
  else
    let count := metrics_records.length
    let total_accuracy := (metrics_records.map (fun m => m.accuracy_score.getD 0)).sum
    let total_faithfulness := (metrics_records.map (fun m => m.faithfulness_score.getD 0)).sum
    let total_reasoning := (metrics_records.map (fun m => m.reasoning_score.getD 0)).sum
    let total_context_util :=
      (metrics_records.map (fun m => m.context_utilization_score.getD 0)).sum
    let total_cost := (metrics_records.map (fun m => m.total_cost_usd.getD 0)).sum
    let total_latency := (metrics_records.map (fun m => m.avg_latency_ms.getD 0)).sum
    if 0 < count then
      { avg_accuracy := some (total_accuracy / count)
        avg_faithfulness := some (total_faithfulness / count)
        avg_reasoning := some (total_reasoning / count)
        avg_context_utilization := some (total_context_util / count)
        total_cost_usd := total_cost
        avg_latency_ms := total_latency / count
        total_questions := evaluation.total_questions
        models_tested := evaluation.models_tested
        status := evaluation.status }
    else
      { avg_accuracy := none
        avg_faithfulness := none
        avg_reasoning := none
        avg_context_utilization := none
        total_cost_usd := 0
        avg_latency_ms := 0
        total_questions := evaluation.total_questions
        models_tested := evaluation.models_tested
        status := evaluation.status }

/-- The body of the evaluation status endpoint response. -/
structure EvaluationResponse where
  id : String
  workspace_id : String
  dataset_id : String
  name : String
  status : String
  progress : ℕ
  total_questions : ℕ
  completed_questions : ℕ
  created_at : String

/-- Embedding of the `/evaluation/{id}` status endpoint
(`get_evaluation_status` in `api/evaluation.py`): for an existing
evaluation it always answers with the stored state and counters, with no
error path. -/
def get_evaluation_status (evaluation : EvaluationRow) : EvaluationResponse :=
  { id := evaluation.id
    workspace_id := evaluation.workspace_id
    dataset_id := evaluation.dataset_id
    name := evaluation.name
    status := evaluation.status
    progress := evaluation.progress
    total_questions := evaluation.total_questions
    completed_questions := evaluation.completed_questions
    created_at := evaluation.created_at }

end Results

/-! ## Concrete inputs used by the witnesses and counterexamples -/

/-- A judge reply whose parsed JSON carries out-of-range pairwise values
(`score_a = 15`, `confidence = 2`). -/
def LLMJudge.pairwiseOutOfRangeResp : LLMJudge.LLMResponse :=
  ⟨"\x7b\"winner\": \"model_a\", \"score_a\": 15, \"score_b\": 3, \"confidence\": 2\x7d".data,
   none⟩

/-- A rubric evaluator reply whose parsed score (`5`) exceeds the
documented `[0, 1]` range and must be clamped. -/
def LLMJudge.rubricRespEx : LLMJudge.LLMResponse :=
  ⟨"\x7b\"score\": 5\x7d".data, none⟩

/-- A provider reply with no JSON at all (used for the rubric evaluators
exercised by the accuracy-null witness). -/
def LLMJudge.proseRespEx : LLMJudge.LLMResponse :=
  ⟨"no json here".data, none⟩

/-- An evaluation still in state `running` (no results yet). -/
def Results.runningEval : Results.EvaluationRow :=
  ⟨"eval-1", "ws-1", "ds-1", "first run", "running", 0, 5, 0, ["m1", "m2"], "2026-01-01"⟩

/-- A completed evaluation (used to exercise the summary endpoint with an
empty result set). -/
def Results.completedEval : Results.EvaluationRow :=
  ⟨"eval-2", "ws-1", "ds-1", "done run", "completed", 100, 5, 5, ["m1", "m2"], "2026-01-02"⟩

/-- A single judge result naming `model_a` the winner. -/
def LLMJudge.judgeResEx : LLMJudge.JudgeResult :=
  ⟨.str "model_a".data, 8, 6, .str [], 1, .obj [], []⟩

/-- A minimal model-result dict (all optional measurements absent). -/
def MetricsCalculator.resultDictEx : MetricsCalculator.ResultDict :=
  ⟨"m1", none, none, none, none, none⟩

/-- A judge-result dict naming `model_a` the winner with score 8. -/
def MetricsCalculator.judgeDictEx : MetricsCalculator.JudgeDict :=
  ⟨"model_a", some 8, some 6, []⟩

/-- The metrics `calculate_model_metrics` produces for `resultDictEx` and
`judgeDictEx` under identifier `model_a`: all measurement aggregates zero
(no measurements present), `win_rate = 100`, `avg_score = 8`. -/
def MetricsCalculator.metricsEx : MetricsCalculator.ModelMetrics :=
  ⟨"m1", 1, 0, 0, 0, 0, 0, 0, 0, 0, 0, 100, 0, 0, 8, 0, 0, 0, 0, 0, 0, 0⟩

/-! ## Helper lemmas -/

/-- Concrete evaluation of `calculate_model_metrics` on the example rows. -/
theorem MetricsCalculator.calculate_model_metrics_resultDictEx :
    MetricsCalculator.calculate_model_metrics [MetricsCalculator.resultDictEx]
      [MetricsCalculator.judgeDictEx] "model_a" = .ok MetricsCalculator.metricsEx := by
  have ht : ("model_a" = "tie") = False := by simp
  have hm : ("model_a" = "model_a") = True := by simp
  norm_num [MetricsCalculator.calculate_model_metrics, MetricsCalculator.resultDictEx,
    MetricsCalculator.judgeDictEx, MetricsCalculator.metricsEx, truthyNum,
    truthyStr, round2, round6, roundHalfEvenInt, pyMean, MetricsCalculator.criteriaAvg,
    MetricsCalculator.criteriaVals, dictFind, List.filter, List.filterMap, ht, hm]

theorem metricsGet_mk_accuracy (a f r c : Option ℚ) :
    metricsGet (mkOverallMetrics a f r c) "accuracy" = a := by
  cases a <;> rfl

theorem metricsGet_mk_faithfulness (a f r c : Option ℚ) :
    metricsGet (mkOverallMetrics a f r c) "faithfulness" = f := by
  cases f <;> rfl

theorem metricsGet_mk_reasoning (a f r c : Option ℚ) :
    metricsGet (mkOverallMetrics a f r c) "reasoning" = r := by
  cases r <;> rfl

theorem metricsGet_mk_context (a f r c : Option ℚ) :
    metricsGet (mkOverallMetrics a f r c) "context_utilization" = c := by
  cases c <;> rfl

/-- Rounding to the nearest integer (ties to even) moves a value by at
most one half. -/
theorem roundHalfEvenInt_sub_abs_le (y : ℚ) : |(roundHalfEvenInt y : ℚ) - y| ≤ 1/2 := by
  have h0 : ((⌊y⌋ : ℤ) : ℚ) ≤ y := Int.floor_le y
  have h1 : y < (⌊y⌋ : ℚ) + 1 := Int.lt_floor_add_one y
  unfold roundHalfEvenInt
  dsimp only
  split_ifs with ha hb hc <;> rw [abs_le] <;> constructor <;> push_cast <;> linarith

/-- Rounding to two decimals moves a value by at most `1/200`. -/
theorem round2_sub_abs_le (x : ℚ) : |round2 x - x| ≤ 1/200 := by
  have h : round2 x - x = ((roundHalfEvenInt (100 * x) : ℚ) - 100 * x) / 100 := by
    unfold round2; ring
  have hb := roundHalfEvenInt_sub_abs_le (100 * x)
  rw [h, abs_div, abs_of_pos (by norm_num : (0:ℚ) < 100)]
  calc |(roundHalfEvenInt (100 * x) : ℚ) - 100 * x| / 100 ≤ (1/2) / 100 := by gcongr
    _ = 1/200 := by norm_num

/-- Three two-decimal roundings of values summing to 100 stay within
`3/200` of 100. -/
theorem round2_sum3_bound (a b c : ℚ) (h : a + b + c = 100) :
    |round2 a + round2 b + round2 c - 100| ≤ 3/200 := by
  have h1 := round2_sub_abs_le a
  have h2 := round2_sub_abs_le b
  have h3 := round2_sub_abs_le c
  rw [abs_le] at h1 h2 h3 ⊢
  constructor <;> linarith

/-- The batch fold of `generate_questions_from_chunks` appends exactly the
successful chunks' questions to the accumulator. -/
theorem genFoldAux (rs : List (Except String (List SyntheticDataGenerator.SyntheticQuestion)))
    (acc : List SyntheticDataGenerator.SyntheticQuestion) :
    rs.foldl
      (fun all_questions r =>
        match r with
        | .ok questions => all_questions ++ questions
        | .error _ => all_questions) acc
    = acc ++ (rs.filterMap Except.toOption).flatten := by
  induction rs generalizing acc with
  | nil => simp
  | cons hd tl ih => cases hd <;> simp [ih, Except.toOption]

namespace LLMJudge

theorem clamp01_bounds (s : ℚ) : 0 ≤ clamp01 s ∧ clamp01 s ≤ 1 :=
  ⟨le_max_left 0 _, max_le (by norm_num) (min_le_left 1 s)⟩

/-- Every rubric evaluation produces some score, and that score lies in
`[0, 1]`. -/
theorem parseRubricResponse_score_shape (resp : LLMResponse) :
    ∃ q, (parseRubricResponse resp).score = some q ∧ 0 ≤ q ∧ q ≤ 1 := by
  unfold parseRubricResponse
  cases h1 : resp.error with
  | some e => exact ⟨0, by simp, le_refl 0, by norm_num⟩
  | none =>
    cases h2 : extract_json resp.content with
    | error e => exact ⟨0, by simp, le_refl 0, by norm_num⟩
    | ok result =>
      cases result with
      | obj fields =>
        cases h3 : pyFloat (((Json.obj fields).get "score".data).getD (.num 0)) with
        | some s => exact ⟨clamp01 s, by simp [h3], (clamp01_bounds s).1, (clamp01_bounds s).2⟩
        | none => exact ⟨0, by simp [h3], le_refl 0, by norm_num⟩
      | null => exact ⟨0, by simp, le_refl 0, by norm_num⟩
      | bool b => exact ⟨0, by simp, le_refl 0, by norm_num⟩
      | num q => exact ⟨0, by simp, le_refl 0, by norm_num⟩
      | str s => exact ⟨0, by simp, le_refl 0, by norm_num⟩
      | arr elems => exact ⟨0, by simp, le_refl 0, by norm_num⟩

/-- Bounds form of `parseRubricResponse_score_shape`. -/
theorem parseRubricResponse_score_bounds (resp : LLMResponse) (q : ℚ)
    (h : (parseRubricResponse resp).score = some q) : 0 ≤ q ∧ q ≤ 1 := by
  obtain ⟨q0, hq0, h0, h1⟩ := parseRubricResponse_score_shape resp
  rw [hq0, Option.some.injEq] at h
  exact h ▸ ⟨h0, h1⟩

/-- The greedy regex span over brace-free prose around one brace-delimited
block selects exactly that block. -/
theorem braceSpanAux (p s mid : List Char)
    (hp : ∀ c ∈ p, c ≠ '\x7b') (hs : ∀ c ∈ s, c ≠ '\x7d') :
    braceSpan (p ++ ('\x7b' :: (mid ++ ['\x7d'])) ++ s)
      = some ('\x7b' :: (mid ++ ['\x7d'])) := by
  unfold braceSpan
  have hdp : p.dropWhile (fun c => c ≠ '\x7b') = [] := by
    rw [List.dropWhile_eq_nil_iff]
    intro x hx
    simpa using hp x hx
  have h1 : (p ++ ('\x7b' :: (mid ++ ['\x7d'])) ++ s).dropWhile (fun c => c ≠ '\x7b')
      = '\x7b' :: (mid ++ ['\x7d']) ++ s := by
    rw [List.append_assoc, List.dropWhile_append, hdp]
    simp [List.dropWhile_cons]
  rw [h1]
  dsimp only
  have hds : (s.reverse).dropWhile (fun c => c ≠ '\x7d') = [] := by
    rw [List.dropWhile_eq_nil_iff]
    intro x hx
    simpa using hs x (List.mem_reverse.mp hx)
  have h2 : ('\x7b' :: (mid ++ ['\x7d']) ++ s).reverse
      = s.reverse ++ ('\x7d' :: (mid.reverse ++ ['\x7b'])) := by
    simp
  rw [h2, List.dropWhile_append, hds]
  simp [List.dropWhile_cons]

end LLMJudge

namespace TextChunker

/-- Every character `collapseWsAux` emits is a space or a non-whitespace
character of the input. -/
theorem collapseWsAux_mem (b : Bool) (l : List Char) (c : Char)
    (h : c ∈ collapseWsAux b l) : c = ' ' ∨ isPySpace c = false := by
  induction l generalizing b with
  | nil => simp [collapseWsAux] at h
  | cons hd tl ih =>
    rw [collapseWsAux] at h
    by_cases hsp : isPySpace hd
    · simp only [hsp, if_true] at h
      by_cases hb : b
      · simp only [hb, if_true] at h
        exact ih _ h
      · simp only [hb, if_false] at h
        rcases List.mem_cons.mp h with h | h
        · exact Or.inl h
        · exact ih _ h
    · simp only [hsp, if_false] at h
      rcases List.mem_cons.mp h with h | h
      · subst h
        exact Or.inr (by simpa using hsp)
      · exact ih _ h

/-- The whitespace-collapsing pass never emits a newline, so the source's
second cleaning regex (`\n\s*\n\s*\n+`) can never match after it — the
justification recorded at `clean_text`. -/
theorem collapseWs_no_newline (l : List Char) : '\n' ∉ collapseWs l := by
  intro h
  rcases collapseWsAux_mem false l '\n' h with h1 | h1
  · exact absurd h1 (by decide)
  · exact absurd h1 (by simp [isPySpace])

theorem dropWhile_head_false {p : Char → Bool} :
    ∀ {l : List Char} {a : Char} {t : List Char}, l.dropWhile p = a :: t → p a = false := by
  intro l
  induction l with
  | nil => intro a t h; simp at h
  | cons hd tl ih =>
    intro a t h
    by_cases hp : p hd
    · rw [List.dropWhile_cons_of_pos hp] at h
      exact ih h
    · rw [List.dropWhile_cons_of_neg hp] at h
      cases h
      simpa using hp

theorem dropWhile_idem {p : Char → Bool} (l : List Char) :
    (l.dropWhile p).dropWhile p = l.dropWhile p := by
  induction l with
  | nil => rfl
  | cons hd tl ih =>
    by_cases hp : p hd
    · rw [List.dropWhile_cons_of_pos hp, ih]
    · rw [List.dropWhile_cons_of_neg hp, List.dropWhile_cons_of_neg hp]

theorem dropWhile_eq_self_of_head {p : Char → Bool} (l : List Char)
    (h : ∀ a t, l = a :: t → p a = false) : l.dropWhile p = l := by
  cases l with
  | nil => rfl
  | cons hd tl => rw [List.dropWhile_cons_of_neg (by simp [h hd tl rfl])]

/-- Python `strip` is idempotent: a stripped string strips to itself. -/
theorem pyStrip_idem (s : List Char) : pyStrip (pyStrip s) = pyStrip s := by
  unfold pyStrip
  set A := s.dropWhile isPySpace with hA
  set B := A.reverse.dropWhile isPySpace with hB
  have hstep : B.reverse.dropWhile isPySpace = B.reverse := by
    apply dropWhile_eq_self_of_head
    intro a t hat
    have hsuffix : B <:+ A.reverse := hB ▸ List.dropWhile_suffix isPySpace
    have hpre : B.reverse <+: A := by
      have := List.reverse_prefix.mpr hsuffix
      simpa using this
    obtain ⟨u, hu⟩ := hpre
    rw [hat] at hu
    have hsd : s.dropWhile isPySpace = a :: (t ++ u) := by rw [← hA]; exact hu.symm
    exact dropWhile_head_false hsd
  rw [hstep, List.reverse_reverse, dropWhile_idem]

/-- The invariant carried by the conversion loop of `chunk_text`: every
emitted chunk has a consistent span, a token count measured on its own
content, and non-empty, strip-stable content. -/
theorem chunkLoop_mem (ct : List Char → ℕ) (text : List Char)
    (md : List (String × String)) :
    ∀ (pieces : List (ℕ × List Char)) (pos : ℕ) (c : Chunk),
      c ∈ chunkLoop ct text md pieces pos →
      c.end_char = c.start_char + c.content.length ∧
      c.token_count = ct c.content ∧
      c.content ≠ [] ∧
      pyStrip c.content = c.content := by
  intro pieces
  induction pieces with
  | nil => intro pos c hc; simp [chunkLoop] at hc
  | cons hd tl ih =>
    intro pos c hc
    obtain ⟨idx, piece⟩ := hd
    rw [chunkLoop] at hc
    by_cases hemp : (pyStrip piece).isEmpty
    · simp only [hemp, if_true] at hc
      exact ih pos c hc
    · simp only [hemp, if_false] at hc
      rcases List.mem_cons.mp hc with hc | hc
      · subst hc
        refine ⟨rfl, rfl, ?_, pyStrip_idem piece⟩
        simpa [List.isEmpty_iff] using hemp
      · exact ih _ c hc

end TextChunker

/-! ## Claim theorems -/

/-- Claim C1 (divergence witness): after 29 of 50 questions the orchestrator
stores `int((29/50)*100)` computed in binary64 float arithmetic, which is
57, while `floor(100*29/50)` — the invariant stated by the spec — is 58.
The rounding of `29/50` to the nearest double makes `(29/50)*100` equal to
`57.9999999999999928…`, which `int()` truncates to 57. -/
theorem progress_float_divergence :
    progressStored 29 50 = 57 ∧ specProgress 29 50 = 58 :=
  ⟨by decide, by decide⟩

/-- Claim C2 (divergence witness): `_percentile([1,2,3], 50)` evaluates to
`2.5` — the unweighted midpoint of `sorted[1]` and `sorted[2]` reached from
index `(50/100)*3 = 1.5` — while the median of `[1,2,3]` is `2`, so the
spec's `percentile(data,50) == median(data)` fails, and the computation is
not linear interpolation between nearest ranks. -/
theorem percentile50_median_divergence :
    MetricsCalculator.percentile [1, 2, 3] 50 = 5/2 ∧
    pyMedian [1, 2, 3] = 2 ∧
    MetricsCalculator.percentile [1, 2, 3] 50 ≠ pyMedian [1, 2, 3] := by
  refine ⟨?_, ?_, ?_⟩ <;>
    norm_num [MetricsCalculator.percentile, pyMedian, pySorted, insertSorted,
      List.cons_ne_nil]

/-- Claim C3 (counterexample): `judge_pair` does not clamp the pairwise
scores — a judge reply with `score_a = 15` and `confidence = 2` produces a
result carrying exactly those out-of-range values. -/
theorem judge_pair_unclamped_counterexample :
    (LLMJudge.judge_pair LLMJudge.pairwiseOutOfRangeResp).map (fun r => r.score_a)
      = Except.ok 15 ∧
    (LLMJudge.judge_pair LLMJudge.pairwiseOutOfRangeResp).map (fun r => r.confidence)
      = Except.ok 2 ∧
    ¬((15 : ℚ) ≤ 10) ∧ ¬((2 : ℚ) ≤ 1) :=
  ⟨rfl, rfl, by norm_num, by norm_num⟩

/-- Claim C3 (amended): in rubric (single-answer) mode every score the four
quality evaluators produce lies in `[0,1]` (they clamp); the pairwise
scores of `judge_pair` are stored unclamped, as the counterexample shows. -/
theorem rubric_scores_clamped :
    (∀ (e : Option (List Char)) (resp : LLMJudge.LLMResponse) (q : ℚ),
      (LLMJudge.evaluate_accuracy e resp).score = some q → 0 ≤ q ∧ q ≤ 1) ∧
    (∀ (resp : LLMJudge.LLMResponse) (q : ℚ),
      (LLMJudge.evaluate_faithfulness resp).score = some q → 0 ≤ q ∧ q ≤ 1) ∧
    (∀ (resp : LLMJudge.LLMResponse) (q : ℚ),
      (LLMJudge.evaluate_reasoning resp).score = some q → 0 ≤ q ∧ q ≤ 1) ∧
    (∀ (resp : LLMJudge.LLMResponse) (q : ℚ),
      (LLMJudge.evaluate_context_utilization resp).score = some q → 0 ≤ q ∧ q ≤ 1) := by
  refine ⟨?_, fun resp q h => LLMJudge.parseRubricResponse_score_bounds resp q h,
    fun resp q h => LLMJudge.parseRubricResponse_score_bounds resp q h,
    fun resp q h => LLMJudge.parseRubricResponse_score_bounds resp q h⟩
  intro e resp q h
  unfold LLMJudge.evaluate_accuracy at h
  split at h
  · simp at h
  · exact LLMJudge.parseRubricResponse_score_bounds resp q h

/-- Claim C3 witness: a rubric reply scoring `5` is clamped to `1`, which
lies in `[0,1]`. -/
theorem rubric_scores_clamped_witness :
    (LLMJudge.evaluate_faithfulness LLMJudge.rubricRespEx).score = some 1 ∧
    (0 ≤ (1 : ℚ) ∧ (1 : ℚ) ≤ 1) := by
  have h1 : (LLMJudge.evaluate_faithfulness LLMJudge.rubricRespEx).score
      = some (LLMJudge.clamp01 5) := rfl
  have h2 : LLMJudge.clamp01 5 = 1 := by norm_num [LLMJudge.clamp01]
  have h : (LLMJudge.evaluate_faithfulness LLMJudge.rubricRespEx).score = some 1 := by
    rw [h1, h2]
  exact ⟨h, rubric_scores_clamped.2.1 LLMJudge.rubricRespEx 1 h⟩

/-- Claim C4 (counterexample): on a response containing two well-formed
JSON objects, `_extract_json` does not return the first object — the
greedy first-`\x7b`-to-last-`\x7d` span fails to parse and the call errors,
even though the first object alone parses fine. -/
theorem extract_json_greedy_counterexample :
    loads "\x7b\"a\": 1\x7d".data = Except.ok (.obj [("a".data, .num 1)]) ∧
    (LLMJudge.extract_json "\x7b\"a\": 1\x7d and \x7b\"b\": 2\x7d".data).isOk = false :=
  ⟨rfl, rfl⟩

/-- Claim C4 (amended): `_extract_json` parses the span from the first
opening brace through the last closing brace of the response; when the
only braces delimit a single well-formed JSON object — prose before it
brace-free of `\x7b`, prose after it brace-free of `\x7d` — it returns that
object parsed (and parse failures of the selected text propagate as
errors, never a default). -/
theorem extract_json_span : ∀ (p s mid : List Char) (v : Json),
    (∀ c ∈ p, c ≠ '\x7b') → (∀ c ∈ s, c ≠ '\x7d') →
    loads ('\x7b' :: (mid ++ ['\x7d'])) = .ok v →
    LLMJudge.extract_json (p ++ ('\x7b' :: (mid ++ ['\x7d'])) ++ s) = .ok v := by
  intro p s mid v hp hs hl
  rw [LLMJudge.extract_json, LLMJudge.braceSpanAux p s mid hp hs]
  exact hl

/-- Claim C4 witness: the spec's scenario — a judge reply
`"Here is my answer: \x7b...\x7d"` — yields the embedded object parsed. -/
theorem extract_json_span_witness :
    LLMJudge.extract_json
        ("Here is my answer: ".data ++ ('\x7b' :: ("\"score\": 1".data ++ ['\x7d'])) ++ [])
      = .ok (.obj [("score".data, .num 1)]) :=
  extract_json_span "Here is my answer: ".data [] "\"score\": 1".data
    (.obj [("score".data, .num 1)]) (by decide) (by decide) rfl

/-- Claim C5: `calculate_overall_score` returns 0 on the empty metrics
dict, returns exactly 1 when all four axes are 1, and on every four-axis
dict equals the 0.30/0.30/0.20/0.20-weighted sum renormalized over the
non-null axes (0 when every axis is null), as `specOverallScore` states. -/
theorem calculate_overall_score_spec :
    calculate_overall_score [] = 0 ∧
    calculate_overall_score (mkOverallMetrics (some 1) (some 1) (some 1) (some 1)) = 1 ∧
    ∀ a f r c : Option ℚ,
      calculate_overall_score (mkOverallMetrics a f r c) = specOverallScore a f r c := by
  refine ⟨rfl, ?_, ?_⟩
  · simp [calculate_overall_score, overallWeights, metricsGet_mk_accuracy,
      metricsGet_mk_faithfulness, metricsGet_mk_reasoning, metricsGet_mk_context]
    norm_num
  · intro a f r c
    rcases a with _ | a <;> rcases f with _ | f <;> rcases r with _ | r <;> rcases c with _ | c <;>
      simp [calculate_overall_score, overallWeights, metricsGet_mk_accuracy,
        metricsGet_mk_faithfulness, metricsGet_mk_reasoning, metricsGet_mk_context,
        specOverallScore] <;> norm_num <;> ring_nf

/-- Claim C6 (counterexample): for an evaluation still `running` — the
usual state of an evaluation with no results yet — the summary endpoint
returns an HTTP 400 error instead of a gracefully degraded response. -/
theorem summary_endpoint_errors_counterexample :
    Results.get_evaluation_summary Results.runningEval [] [] =
      .error ⟨400, "Evaluation is not completed. Current status: running"⟩ := rfl

/-- Claim C6 (amended): the status endpoint and the metrics-summary
endpoint degrade gracefully with no results (stored counters; null
averages and zero totals) and never error, and the summary endpoint
returns empty aggregates without error for a completed evaluation with no
results — but for a not-yet-completed evaluation it returns HTTP 400. -/
theorem endpoints_degrade_gracefully :
    (∀ ev : Results.EvaluationRow, ev.status = "completed" →
      Results.get_evaluation_summary ev [] [] =
        .ok ⟨ev.id, ev.name, ev.status, ev.total_questions, ev.models_tested, [], none⟩) ∧
    (∀ ev : Results.EvaluationRow,
      Results.get_new_metrics_summary ev [] =
        ⟨none, none, none, none, 0, 0, ev.total_questions, ev.models_tested, ev.status⟩) ∧
    (∀ ev : Results.EvaluationRow,
      Results.get_evaluation_status ev =
        ⟨ev.id, ev.workspace_id, ev.dataset_id, ev.name, ev.status, ev.progress,
         ev.total_questions, ev.completed_questions, ev.created_at⟩) := by
  refine ⟨?_, fun ev => rfl, fun ev => rfl⟩
  intro ev hev
  simp [Results.get_evaluation_summary, hev, Results.groupByModel]
  rfl

/-- Claim C6 witness: a completed evaluation with no stored results gets a
well-formed summary with empty aggregates. -/
theorem endpoints_degrade_gracefully_witness :
    Results.completedEval.status = "completed" ∧
    Results.get_evaluation_summary Results.completedEval [] [] =
      .ok ⟨"eval-2", "done run", "completed", 5, ["m1", "m2"], [], none⟩ :=
  ⟨rfl, endpoints_degrade_gracefully.1 Results.completedEval rfl⟩

/-- Claim C7: whenever judge results exist, the win, tie and loss rates sum
to 100 — exactly for `LLMJudge.calculate_win_rate` (losses are defined as
the complement), and within the two-decimal rounding tolerance `3/200` for
the rates stored by `MetricsCalculator.calculate_model_metrics`. -/
theorem win_tie_loss_sum :
    (∀ (rs : List LLMJudge.JudgeResult) (name : List Char), rs ≠ [] →
      (LLMJudge.calculate_win_rate rs name).win_rate +
      (LLMJudge.calculate_win_rate rs name).tie_rate +
      (LLMJudge.calculate_win_rate rs name).loss_rate = 100) ∧
    (∀ (mrs : List MetricsCalculator.ResultDict)
      (jrs : List MetricsCalculator.JudgeDict) (ident : String)
      (m : MetricsCalculator.ModelMetrics),
      mrs ≠ [] → jrs ≠ [] →
      MetricsCalculator.calculate_model_metrics mrs jrs ident = .ok m →
      |m.win_rate + m.tie_rate + m.loss_rate - 100| ≤ 3/200) := by
  constructor
  · intro rs name h
    have h0 : rs.length ≠ 0 := by simpa [List.length_eq_zero] using h
    have hn : (rs.length : ℚ) ≠ 0 := by exact_mod_cast h0
    have hemp : rs.isEmpty = false := by simpa [List.isEmpty_iff] using h
    simp only [LLMJudge.calculate_win_rate, hemp, Bool.false_eq_true, if_false]
    push_cast
    field_simp
    ring
  · intro mrs jrs ident m hm hj hcalc
    have hn : (jrs.length : ℚ) ≠ 0 := by
      exact_mod_cast (by simpa [List.length_eq_zero] using hj : jrs.length ≠ 0)
    simp only [MetricsCalculator.calculate_model_metrics, if_neg hm, if_neg hj,
      Except.ok.injEq] at hcalc
    subst hcalc
    dsimp only
    apply round2_sum3_bound
    push_cast
    field_simp
    ring

/-- Claim C7 witness: a single judge result won by `model_a` gives rates
summing to 100, and the stored metrics for one result row and that judge
row keep the rounded rates within tolerance. -/
theorem win_tie_loss_sum_witness :
    ((LLMJudge.calculate_win_rate [LLMJudge.judgeResEx] "model_a".data).win_rate +
     (LLMJudge.calculate_win_rate [LLMJudge.judgeResEx] "model_a".data).tie_rate +
     (LLMJudge.calculate_win_rate [LLMJudge.judgeResEx] "model_a".data).loss_rate = 100) ∧
    ([MetricsCalculator.resultDictEx] ≠ ([] : List MetricsCalculator.ResultDict)) ∧
    ([MetricsCalculator.judgeDictEx] ≠ ([] : List MetricsCalculator.JudgeDict)) ∧
    |MetricsCalculator.metricsEx.win_rate + MetricsCalculator.metricsEx.tie_rate +
      MetricsCalculator.metricsEx.loss_rate - 100| ≤ 3/200 := by
  refine ⟨win_tie_loss_sum.1 [LLMJudge.judgeResEx] "model_a".data (by simp), by simp, by simp, ?_⟩
  exact win_tie_loss_sum.2 [MetricsCalculator.resultDictEx] [MetricsCalculator.judgeDictEx]
    "model_a" MetricsCalculator.metricsEx (by simp) (by simp)
    MetricsCalculator.calculate_model_metrics_resultDictEx

/-- Claim C8: with no (or an empty) reference answer the accuracy score is
null — never a fabricated number — while the other three quality axes still
produce a score. -/
theorem accuracy_null_without_reference :
    ∀ (expected : Option (List Char)) (respAcc respF respR respC : LLMJudge.LLMResponse),
    (expected = none ∨ expected = some []) →
    (LLMJudge.evaluate_all_quality_metrics expected respAcc respF respR respC).accuracy.score
        = none ∧
    (LLMJudge.evaluate_all_quality_metrics expected respAcc respF respR
        respC).faithfulness.score.isSome = true ∧
    (LLMJudge.evaluate_all_quality_metrics expected respAcc respF respR
        respC).reasoning.score.isSome = true ∧
    (LLMJudge.evaluate_all_quality_metrics expected respAcc respF respR
        respC).context_utilization.score.isSome = true := by
  intro expected respAcc respF respR respC he
  have hS : ∀ r : LLMJudge.LLMResponse,
      (LLMJudge.parseRubricResponse r).score.isSome = true := by
    intro r
    obtain ⟨q, hq, -, -⟩ := LLMJudge.parseRubricResponse_score_shape r
    simp [hq]
  refine ⟨?_, hS respF, hS respR, hS respC⟩
  have hacc : LLMJudge.evaluate_accuracy expected respAcc =
      ⟨none, .str "No expected answer provided for comparison".data⟩ := by
    unfold LLMJudge.evaluate_accuracy
    rw [if_pos he]
  show (LLMJudge.evaluate_accuracy expected respAcc).score = none
  rw [hacc]

/-- Claim C8 witness: with `expected_answer = None` and arbitrary concrete
replies, accuracy is null and the other three axes carry scores. -/
theorem accuracy_null_without_reference_witness :
    ((none : Option (List Char)) = none ∨ (none : Option (List Char)) = some []) ∧
    ((LLMJudge.evaluate_all_quality_metrics none LLMJudge.proseRespEx LLMJudge.proseRespEx
        LLMJudge.proseRespEx LLMJudge.proseRespEx).accuracy.score = none ∧
     (LLMJudge.evaluate_all_quality_metrics none LLMJudge.proseRespEx LLMJudge.proseRespEx
        LLMJudge.proseRespEx LLMJudge.proseRespEx).faithfulness.score.isSome = true ∧
     (LLMJudge.evaluate_all_quality_metrics none LLMJudge.proseRespEx LLMJudge.proseRespEx
        LLMJudge.proseRespEx LLMJudge.proseRespEx).reasoning.score.isSome = true ∧
     (LLMJudge.evaluate_all_quality_metrics none LLMJudge.proseRespEx LLMJudge.proseRespEx
        LLMJudge.proseRespEx LLMJudge.proseRespEx).context_utilization.score.isSome = true) :=
  ⟨Or.inl rfl, accuracy_null_without_reference none LLMJudge.proseRespEx LLMJudge.proseRespEx
    LLMJudge.proseRespEx LLMJudge.proseRespEx (Or.inl rfl)⟩

/-- Claim C9: the batch generator returns exactly the questions of the
succeeding chunks, in order — a failing chunk contributes nothing and does
not abort the batch — so the returned count counts only successes. -/
theorem generate_questions_skips_failures :
    ∀ rs : List (Except String (List SyntheticDataGenerator.SyntheticQuestion)),
    SyntheticDataGenerator.generate_questions_from_chunks rs
      = (rs.filterMap Except.toOption).flatten ∧
    (SyntheticDataGenerator.generate_questions_from_chunks rs).length
      = ((rs.filterMap Except.toOption).map List.length).sum := by
  intro rs
  have h : SyntheticDataGenerator.generate_questions_from_chunks rs
      = (rs.filterMap Except.toOption).flatten := by simpa using genFoldAux rs []
  exact ⟨h, by rw [h, List.length_flatten]⟩

/-- Claim C10: every chunk `chunk_text` returns — for any tokenizer, any
splitter output, any input text and metadata — satisfies
`end_char = start_char + len(content)`, `token_count = count_tokens(content)`,
and has non-empty content with no leading or trailing whitespace. -/
theorem chunk_invariants (ct : List Char → ℕ) (st : List Char → List (List Char))
    (text : List Char) (md : List (String × String)) (c : TextChunker.Chunk)
    (hc : c ∈ TextChunker.chunk_text ct st text md) :
    c.end_char = c.start_char + c.content.length ∧
    c.token_count = ct c.content ∧
    c.content ≠ [] ∧
    TextChunker.pyStrip c.content = c.content := by
  rw [TextChunker.chunk_text] at hc
  split at hc
  · simp at hc
  · exact TextChunker.chunkLoop_mem ct (TextChunker.clean_text text) md _ 0 c hc

/-- Claim C10 witness: chunking `"hi there"` with a two-piece splitter and
a length tokenizer yields the chunk `"hi"` at span `[0, 2)`, and the
invariants hold for it. -/
theorem chunk_invariants_witness :
    ((⟨"hi".data, 0, 0, 2, 2, []⟩ : TextChunker.Chunk) ∈
      TextChunker.chunk_text List.length (fun _ => ["hi ".data, "there".data])
        "hi there".data []) ∧
    ((2 : ℕ) = 0 + ("hi".data).length ∧
     (2 : ℕ) = List.length "hi".data ∧
     "hi".data ≠ [] ∧
     TextChunker.pyStrip "hi".data = "hi".data) :=
  ⟨by decide, chunk_invariants List.length (fun _ => ["hi ".data, "there".data])
    "hi there".data [] ⟨"hi".data, 0, 0, 2, 2, []⟩ (by decide)⟩

end LLMComp
